import Mathlib

/-!
Verification development for the survey / photo-verification web
application.  The data model is translated from the Drizzle schema
(shared schema module), the verification client from the OpenAI service
module, the HTTP route handlers from the Express routes module, and the
client-side transitions from the React survey page.  Timestamps are
modelled as integers (milliseconds), images and identifiers as strings,
and the external vision model as an oracle parameter of type
String to String to Except String UpstreamJson.
-/

namespace BasePower

/- ===== Data model (Drizzle schema: survey_invitations, user_sessions,
   photo_attempts tables) ===== -/

/-- Row of the survey_invitations table. -/
structure SurveyInvitation where
  id : String
  surveyId : String
  userEmail : String
  invitationToken : String
  isCompleted : Bool
  completedAt : Option Int
  expiresAt : Int
  deriving Repr, DecidableEq

/-- Row of the user_sessions table. -/
structure UserSession where
  id : String
  invitationId : String
  currentStep : Int
  completedSteps : List String
  isCompleted : Bool
  completedAt : Option Int
  deriving Repr, DecidableEq

/-- Row of the photo_attempts table. -/
structure PhotoAttempt where
  id : String
  sessionId : String
  stepId : String
  attemptNumber : Int
  imageData : String
  verificationResult : Option Bool
  errorMessage : Option String
  deriving Repr, DecidableEq

/- ===== Object verification client (openai service module) ===== -/

/-- Result type returned by the photo verification client. -/
structure PhotoVerificationResult where
  isCorrectObject : Bool
  confidence : Rat
  detectedObjects : List String
  errorMessage : Option String
  deriving Repr, DecidableEq

/-- The JSON object parsed from the upstream model response.  Every field
may be absent (the source reads each field with a JS truthiness
fallback), so each is an Option.  A JSON NaN confidence is falsy in JS
and behaves like an absent field, so it is folded into none. -/
structure UpstreamJson where
  isCorrectObject : Option Bool
  confidence : Option Rat
  detectedObjects : Option (List String)
  reasoning : Option String
  deriving Repr, DecidableEq

/-- Error text returned by the client when the upstream call fails. -/
def failedAnalyzeMsg : String := "Failed to analyze image. Please try again."

/-- The verification client.  The upstream vision call (network plus JSON
parse) is the oracle argument: it either yields a parsed JSON object or
an error (transport, parse, or upstream failure, all of which land in
the single catch block of the source).  On success the source reads each
field with a truthiness fallback and clamps confidence into the unit
interval. -/
def verifyPhotoObject (base64Image expectedObject : String)
    (upstream : String → String → Except String UpstreamJson) :
    PhotoVerificationResult :=
  match upstream base64Image expectedObject with
  | Except.error _ =>
      { isCorrectObject := false
        confidence := 0
        detectedObjects := []
        errorMessage := some failedAnalyzeMsg }
  | Except.ok r =>
      let isOk := r.isCorrectObject.getD false
      { isCorrectObject := isOk
        confidence := max 0 (min 1 (r.confidence.getD 0))
        detectedObjects := r.detectedObjects.getD []
        errorMessage := if isOk then none else r.reasoning }

/- ===== Persistence state (storage module).  The database tables are
   modelled as lists; inserts append, updates map over the matching row,
   lookups use find?.  Generated ids are modelled deterministically from
   the table length (the claims never depend on id randomness). ===== -/

/-- The contents of the three tables the user-facing flow touches. -/
structure ServerState where
  invitations : List SurveyInvitation
  sessions : List UserSession
  attempts : List PhotoAttempt
  deriving Repr, DecidableEq

/-- storage.getSurveyInvitation: lookup by exact token equality. -/
def getSurveyInvitation (st : ServerState) (token : String) :
    Option SurveyInvitation :=
  st.invitations.find? (fun inv => inv.invitationToken == token)

/-- storage.getUserSession: lookup by id. -/
def getUserSession (st : ServerState) (id : String) : Option UserSession :=
  st.sessions.find? (fun s => s.id == id)

/- ===== HTTP route handlers (Express routes module) ===== -/

/-- Response of GET /api/survey/:token (the resolve operation). -/
inductive ResolveResponse where
  | notFound
  | expired
  | resolved (invitation : SurveyInvitation)
  deriving Repr, DecidableEq

/-- GET /api/survey/:token: 404 when the token does not resolve, 410 when
the current time is past expiresAt, otherwise the survey data.  This is
the only place the source compares the clock against expiresAt. -/
def getSurveyHandler (now : Int) (st : ServerState) (token : String) :
    ResolveResponse :=
  match getSurveyInvitation st token with
  | none => ResolveResponse.notFound
  | some inv =>
      if inv.expiresAt < now then ResolveResponse.expired
      else ResolveResponse.resolved inv

/-- Response of POST /api/survey/:token/session.  The source route has no
expired branch: it only distinguishes an unresolved token from success. -/
inductive StartResponse where
  | notFound
  | created (session : UserSession)
  deriving Repr, DecidableEq

/-- The session row inserted by the start route: step 0, no completed
steps, not completed (insertUserSessionSchema defaults). -/
def newUserSession (st : ServerState) (inv : SurveyInvitation) : UserSession :=
  { id := "session-" ++ toString st.sessions.length
    invitationId := inv.id
    currentStep := 0
    completedSteps := []
    isCompleted := false
    completedAt := none }

/-- POST /api/survey/:token/session: resolves the token (404 when
unresolved) and inserts a fresh session row.  Translated exactly from the
source: there is no check of expiresAt and no check of the
isCompleted flag. -/
def startSessionHandler (st : ServerState) (token : String) :
    StartResponse × ServerState :=
  match getSurveyInvitation st token with
  | none => (StartResponse.notFound, st)
  | some inv =>
      (StartResponse.created (newUserSession st inv),
       { st with sessions := st.sessions ++ [newUserSession st inv] })

/-- The Partial UserSession body accepted by PATCH /api/sessions/:id.
Absent fields leave the stored row unchanged. -/
structure SessionUpdates where
  currentStep : Option Int
  completedSteps : Option (List String)
  isCompleted : Option Bool
  completedAt : Option Int
  deriving Repr, DecidableEq

/-- Merge a PATCH body into a session row, as drizzle set does with a
spread of the updates object. -/
def applySessionUpdates (s : UserSession) (u : SessionUpdates) : UserSession :=
  { s with
    currentStep := u.currentStep.getD s.currentStep
    completedSteps := u.completedSteps.getD s.completedSteps
    isCompleted := u.isCompleted.getD s.isCompleted
    completedAt :=
      match u.completedAt with
      | some t => some t
      | none => s.completedAt }

/-- Response of PATCH /api/sessions/:id. -/
inductive PatchResponse where
  | notFound
  | updated (session : UserSession)
  deriving Repr, DecidableEq

/-- PATCH /api/sessions/:id: applies the caller-supplied updates verbatim
to the matching session row.  Translated exactly from the source: no
validation of the updates object, in particular no monotonicity or bound
check on currentStep. -/
def updateUserSessionHandler (st : ServerState) (id : String)
    (u : SessionUpdates) : PatchResponse × ServerState :=
  match getUserSession st id with
  | none => (PatchResponse.notFound, st)
  | some s =>
      (PatchResponse.updated (applySessionUpdates s u),
       { st with sessions := st.sessions.map (fun t => if t.id == id then applySessionUpdates t u else t) })

/-- JS parseInt on a form field: optional sign then leading decimal
digits; no digits means NaN, which the zod integer schema then rejects. -/
def parseIntJS (s : String) : Option Int :=
  let signed : Int × List Char :=
    match s.data with
    | '-' :: r => (-1, r)
    | '+' :: r => (1, r)
    | r => (1, r)
  let ds := signed.2.takeWhile Char.isDigit
  if ds.isEmpty then none
  else some (signed.1 *
    Int.ofNat (ds.foldl (fun acc c => acc * 10 + (c.toNat - 48)) 0))

/-- Body of POST /api/sessions/:id/verify: multipart fields plus either a
multer file upload (payload, mimetype) or inline base64 image data. -/
structure VerifyRequest where
  stepId : String
  attemptNumber : String
  expectedObject : String
  file : Option (String × String)
  imageData : Option String
  deriving Repr, DecidableEq

/-- The base64 image the route builds: a data URI from the uploaded file
when present, otherwise the inline imageData field. -/
def requestImage (req : VerifyRequest) : String :=
  match req.file with
  | some fileData => "data:" ++ fileData.2 ++ ";base64," ++ fileData.1
  | none => req.imageData.getD ("")

/-- The verification outcome the route obtains for a request. -/
def verifyOutcome (upstream : String → String → Except String UpstreamJson)
    (req : VerifyRequest) : PhotoVerificationResult :=
  verifyPhotoObject (requestImage req) req.expectedObject upstream

/-- The photo_attempts row the route inserts: the caller-supplied stepId
and parsed attemptNumber stored verbatim, plus the verification verdict. -/
def newAttemptRow (upstream : String → String → Except String UpstreamJson)
    (st : ServerState) (id : String) (req : VerifyRequest) (n : Int) :
    PhotoAttempt :=
  { id := "attempt-" ++ toString st.attempts.length
    sessionId := id
    stepId := req.stepId
    attemptNumber := n
    imageData := requestImage req
    verificationResult := some (verifyOutcome upstream req).isCorrectObject
    errorMessage := (verifyOutcome upstream req).errorMessage }

/-- Error text of the missing-image rejection. -/
def noImageMsg : String := "No image provided"

/-- Error text of the catch-all 500 response of the verify route. -/
def verifyFailedMsg : String := "Failed to verify photo"

/-- Response of POST /api/sessions/:id/verify. -/
inductive VerifyResponse where
  | badRequest (message : String)
  | serverError (message : String)
  | ok (attempt : PhotoAttempt) (verification : PhotoVerificationResult)
  deriving Repr, DecidableEq

/-- POST /api/sessions/:id/verify, translated exactly from the source:
reject with 400 when neither a file nor inline image data is present;
otherwise call the verification client, parse the attempt data (a
non-numeric attemptNumber fails the zod parse and lands in the catch
block as a 500 with no row written), insert exactly one attempt row and
return it together with the verification result.  The route never reads
the session row: there is no completed-session check, no step-bound
check and no attempt-count check. -/
def verifyHandler (upstream : String → String → Except String UpstreamJson)
    (st : ServerState) (id : String) (req : VerifyRequest) :
    VerifyResponse × ServerState :=
  if req.file.isNone && req.imageData.isNone then
    (VerifyResponse.badRequest noImageMsg, st)
  else
    match parseIntJS req.attemptNumber with
    | none => (VerifyResponse.serverError verifyFailedMsg, st)
    | some n =>
        (VerifyResponse.ok (newAttemptRow upstream st id req n)
          (verifyOutcome upstream req),
         { st with attempts := st.attempts ++ [newAttemptRow upstream st id req n] })

/- ===== Client-side survey flow (React survey page and the legacy
   photo-verification page) ===== -/

/-- The client-side attempt limit (constant maxAttempts = 2 in both
client pages). -/
def maxAttempts : Nat := 2

/-- The action button offered in the error panel after a rejected
verification. -/
inductive RetryAction where
  | tryAgain
  | usePhotoAnyway
  deriving Repr, DecidableEq

/-- The error panel of both client pages: a Try Again button while the
attempt count is below maxAttempts, otherwise a Use Photo Anyway
override button. -/
def errorPanelAction (attemptCount : Nat) : RetryAction :=
  if attemptCount < maxAttempts then RetryAction.tryAgain
  else RetryAction.usePhotoAnyway

/-- The verificationState useState of the client pages. -/
inductive VerificationUiState where
  | idle
  | capturing
  | verifying
  | success
  | error
  deriving Repr, DecidableEq

/-- Local state of the survey page component. -/
structure SurveyClientState where
  currentStepIndex : Nat
  attemptCount : Nat
  verificationState : VerificationUiState
  capturedImage : Option String
  deriving Repr, DecidableEq

/-- moveToNextStep of the survey page.  steps is the ordered list of the
step ids of the survey, sessionCompletedSteps the completedSteps of the
fetched session row.  Past the last step it marks the session completed
via a PATCH body and leaves the index unchanged; otherwise it advances
to the next index, resets the attempt counter and records the finished
step id in the PATCH body. -/
def moveToNextStep (steps sessionCompletedSteps : List String)
    (c : SurveyClientState) : SurveyClientState × SessionUpdates :=
  let nextStepIndex := c.currentStepIndex + 1
  if steps.length ≤ nextStepIndex then
    ({ c with verificationState := VerificationUiState.idle },
     { currentStep := none, completedSteps := none,
       isCompleted := some true, completedAt := none })
  else
    ({ c with
        currentStepIndex := nextStepIndex
        attemptCount := 0
        verificationState := VerificationUiState.idle
        capturedImage := none },
     { currentStep := some (Int.ofNat nextStepIndex)
       completedSteps := some (sessionCompletedSteps ++ [(steps.get? c.currentStepIndex).getD ("")])
       isCompleted := none
       completedAt := none })

/-- Local state of the legacy photo-verification page. -/
structure PhotoPageState where
  currentStep : Nat
  attemptCount : Nat
  verificationState : VerificationUiState
  capturedImage : Option String
  deriving Repr, DecidableEq

/-- handlePreviousStep of the legacy photo-verification page (the back
button): decrements the step counter whenever it is positive. -/
def handlePreviousStep (c : PhotoPageState) : PhotoPageState :=
  if 0 < c.currentStep then
    { c with
        currentStep := c.currentStep - 1
        attemptCount := 0
        verificationState := VerificationUiState.idle
        capturedImage := none }
  else c

/- ===== Helper lemmas ===== -/

/-- On any request with an image and a parseable attemptNumber the verify
route returns 200 and appends exactly the new attempt row. -/
theorem verifyHandler_eq_ok
    (upstream : String → String → Except String UpstreamJson)
    (st : ServerState) (id : String) (req : VerifyRequest) (n : Int)
    (hi : (req.file.isNone && req.imageData.isNone) = false)
    (hn : parseIntJS req.attemptNumber = some n) :
    verifyHandler upstream st id req =
      (VerifyResponse.ok (newAttemptRow upstream st id req n)
        (verifyOutcome upstream req),
       { st with attempts := st.attempts ++ [newAttemptRow upstream st id req n] }) := by
  unfold verifyHandler
  rw [hi, hn]
  rfl

/- ===== Claim theorems ===== -/

/-- Claim C4 (confirmed): when the upstream vision call raises any
transport, parsing, or upstream error, verifyPhotoObject returns exactly
the negative outcome with isCorrectObject false, confidence 0, no
detected objects and the fixed retry error message, rather than
propagating the exception. -/
theorem C4_upstream_error_negative_outcome
    (base64Image expectedObject e : String)
    (upstream : String → String → Except String UpstreamJson)
    (h : upstream base64Image expectedObject = Except.error e) :
    verifyPhotoObject base64Image expectedObject upstream =
      { isCorrectObject := false, confidence := 0, detectedObjects := [],
        errorMessage := some failedAnalyzeMsg } := by
  unfold verifyPhotoObject
  rw [h]

/-- Image fixture used by concrete witnesses. -/
def imgFixture : String := "data:image/jpeg;base64,AAAA"

/-- Expected-object fixture used by concrete witnesses. -/
def objFixture : String := "smartphone"

/-- Error text fixture for a failing upstream call. -/
def boomMsg : String := "network timeout"

/-- An upstream oracle that always fails with a transport error. -/
def failingUpstream : String → String → Except String UpstreamJson :=
  fun _ _ => Except.error boomMsg

/-- Witness for C4 at a concrete image, label and failing oracle. -/
theorem C4_witness :
    failingUpstream imgFixture objFixture = Except.error boomMsg ∧
    verifyPhotoObject imgFixture objFixture failingUpstream =
      { isCorrectObject := false, confidence := 0, detectedObjects := [],
        errorMessage := some failedAnalyzeMsg } :=
  ⟨rfl, C4_upstream_error_negative_outcome imgFixture objFixture boomMsg
    failingUpstream rfl⟩

/-- Claim C8 (confirmed): whatever the upstream model reports for
confidence (missing, negative, or above 1, and also on error), the
confidence of the returned VerificationOutcome lies in the closed
interval from 0 to 1. -/
theorem C8_confidence_in_unit_interval
    (base64Image expectedObject : String)
    (upstream : String → String → Except String UpstreamJson) :
    0 ≤ (verifyPhotoObject base64Image expectedObject upstream).confidence ∧
    (verifyPhotoObject base64Image expectedObject upstream).confidence ≤ 1 := by
  unfold verifyPhotoObject
  cases upstream base64Image expectedObject with
  | error e => constructor <;> norm_num
  | ok r =>
      constructor
      · exact le_max_left 0 _
      · exact max_le (by norm_num) (min_le_left 1 _)

/-- Step id fixture. -/
def stepOneId : String := "step-1"

/-- Session id fixture. -/
def sessionOneId : String := "session-1"

/-- Reasoning text fixture for an accepting upstream response. -/
def reasonFixture : String := "a smartphone is clearly visible"

/-- An upstream oracle that always accepts. -/
def acceptingUpstream : String → String → Except String UpstreamJson :=
  fun _ _ => Except.ok
    { isCorrectObject := some true, confidence := some 1,
      detectedObjects := some [objFixture], reasoning := some reasonFixture }

/-- Rejection text fixture for a rejecting upstream response. -/
def rejectReason : String := "no smartphone is visible in the photo"

/-- An upstream oracle that always rejects. -/
def rejectingUpstream : String → String → Except String UpstreamJson :=
  fun _ _ => Except.ok
    { isCorrectObject := some false, confidence := some 1,
      detectedObjects := some [], reasoning := some rejectReason }

/-- Empty server state fixture. -/
def stEmpty : ServerState := { invitations := [], sessions := [], attempts := [] }

/-- A well-formed verify request fixture (inline image data, attempt 1). -/
def reqFixture : VerifyRequest :=
  { stepId := stepOneId, attemptNumber := "1", expectedObject := objFixture,
    file := none, imageData := some imgFixture }

/-- Claim C5 (confirmed): every verify call that passes input validation
(an image is present and the attemptNumber field parses) appends exactly
one new Attempt Ledger row, never zero and never more than one, and does
so for every verification verdict (the upstream oracle is universally
quantified, and the row records the verdict as given). -/
theorem C5_exactly_one_attempt_row
    (upstream : String → String → Except String UpstreamJson)
    (st : ServerState) (id : String) (req : VerifyRequest) (n : Int)
    (hi : (req.file.isNone && req.imageData.isNone) = false)
    (hn : parseIntJS req.attemptNumber = some n) :
    (verifyHandler upstream st id req).2.attempts
      = st.attempts ++ [newAttemptRow upstream st id req n] ∧
    ((verifyHandler upstream st id req).2.attempts).length
      = st.attempts.length + 1 ∧
    (newAttemptRow upstream st id req n).verificationResult
      = some (verifyOutcome upstream req).isCorrectObject := by
  rw [verifyHandler_eq_ok upstream st id req n hi hn]
  refine ⟨rfl, ?_, rfl⟩
  simp

/-- Witness for C5: a concrete rejected submission still writes exactly
one row. -/
theorem C5_witness :
    ((reqFixture.file.isNone && reqFixture.imageData.isNone) = false) ∧
    parseIntJS reqFixture.attemptNumber = some 1 ∧
    ((verifyHandler rejectingUpstream stEmpty sessionOneId reqFixture).2.attempts).length
      = stEmpty.attempts.length + 1 :=
  ⟨by decide, by decide,
   (C5_exactly_one_attempt_row rejectingUpstream stEmpty sessionOneId
      reqFixture 1 (by decide) (by decide)).2.1⟩

/-- Claim C9 (confirmed): a verify request carrying no image at all is
rejected synchronously with the 400 input error, the server state is
unchanged (no Attempt row), and the verifier is not invoked: the outcome
is identical for every upstream oracle. -/
theorem C9_missing_image_no_side_effects
    (upstream upstream2 : String → String → Except String UpstreamJson)
    (st : ServerState) (id : String) (req : VerifyRequest)
    (hf : req.file = none) (hd : req.imageData = none) :
    verifyHandler upstream st id req = (VerifyResponse.badRequest noImageMsg, st) ∧
    verifyHandler upstream st id req = verifyHandler upstream2 st id req := by
  unfold verifyHandler
  rw [hf, hd]
  exact ⟨rfl, rfl⟩

/-- An imageless verify request fixture. -/
def noImageReq : VerifyRequest :=
  { stepId := stepOneId, attemptNumber := "1", expectedObject := objFixture,
    file := none, imageData := none }

/-- Witness for C9 at a concrete imageless request. -/
theorem C9_witness :
    noImageReq.file = none ∧ noImageReq.imageData = none ∧
    verifyHandler acceptingUpstream stEmpty sessionOneId noImageReq
      = (VerifyResponse.badRequest noImageMsg, stEmpty) ∧
    verifyHandler acceptingUpstream stEmpty sessionOneId noImageReq
      = verifyHandler failingUpstream stEmpty sessionOneId noImageReq := by
  have h := C9_missing_image_no_side_effects acceptingUpstream failingUpstream
    stEmpty sessionOneId noImageReq rfl rfl
  exact ⟨rfl, rfl, h.1, h.2⟩

/-- Token fixture of an expired invitation. -/
def tokOne : String := "tok-1"

/-- A token fixture that resolves to nothing. -/
def tokMissing : String := "tok-missing"

/-- An invitation fixture whose expiresAt (5) is in the past at time 10. -/
def expiredInvitation : SurveyInvitation :=
  { id := "inv-1", surveyId := "survey-1", userEmail := "user@example.com",
    invitationToken := tokOne, isCompleted := false, completedAt := none,
    expiresAt := 5 }

/-- Server state fixture holding only the expired invitation. -/
def stExpired : ServerState :=
  { invitations := [expiredInvitation], sessions := [], attempts := [] }

/-- Claim C1 counterexample: at time 10 the invitation with expiresAt 5
is expired (the resolve operation itself reports Expired), yet the start
operation succeeds and creates a Session row instead of failing with
Expired. -/
theorem C1_counterexample :
    getSurveyHandler 10 stExpired tokOne = ResolveResponse.expired ∧
    (startSessionHandler stExpired tokOne).1
      = StartResponse.created (newUserSession stExpired expiredInvitation) ∧
    ((startSessionHandler stExpired tokOne).2.sessions).length = 1 := by
  decide

/-- Claim C1 (corrected): start fails with NotFound when the token is
unresolved; when the token resolves it creates a Session at step 0,
attempt 0, not completed — even when the invitation is already expired
(now past expiresAt).  Only the resolve operation (GET) reports
Expired; the start route performs no expiry check. -/
theorem C1_start_ignores_expiry (st : ServerState) (token tok2 : String)
    (now : Int) (inv : SurveyInvitation)
    (hfind : getSurveyInvitation st token = some inv)
    (hexp : inv.expiresAt < now)
    (hmiss : getSurveyInvitation st tok2 = none) :
    getSurveyHandler now st token = ResolveResponse.expired ∧
    startSessionHandler st token =
      (StartResponse.created (newUserSession st inv),
       { st with sessions := st.sessions ++ [newUserSession st inv] }) ∧
    startSessionHandler st tok2 = (StartResponse.notFound, st) := by
  unfold getSurveyHandler startSessionHandler
  rw [hfind, hmiss]
  refine ⟨?_, rfl, rfl⟩
  show (if inv.expiresAt < now then ResolveResponse.expired
    else ResolveResponse.resolved inv) = ResolveResponse.expired
  rw [if_pos hexp]

/-- Witness for C1 at the concrete expired invitation and time 10. -/
theorem C1_witness :
    getSurveyInvitation stExpired tokOne = some expiredInvitation ∧
    expiredInvitation.expiresAt < 10 ∧
    getSurveyInvitation stExpired tokMissing = none ∧
    getSurveyHandler 10 stExpired tokOne = ResolveResponse.expired :=
  ⟨by decide, by decide, by decide,
   (C1_start_ignores_expiry stExpired tokOne tokMissing 10 expiredInvitation
      (by decide) (by decide) (by decide)).1⟩

/-- A not-yet-completed session fixture. -/
def sessionOne : UserSession :=
  { id := sessionOneId, invitationId := "inv-1", currentStep := 0,
    completedSteps := [], isCompleted := false, completedAt := none }

/-- First rejected attempt row fixture for step-1. -/
def rejectedRow1 : PhotoAttempt :=
  { id := "attempt-0", sessionId := sessionOneId, stepId := stepOneId,
    attemptNumber := 1, imageData := imgFixture,
    verificationResult := some false, errorMessage := some rejectReason }

/-- Second rejected attempt row fixture for step-1. -/
def rejectedRow2 : PhotoAttempt :=
  { id := "attempt-1", sessionId := sessionOneId, stepId := stepOneId,
    attemptNumber := 2, imageData := imgFixture,
    verificationResult := some false, errorMessage := some rejectReason }

/-- State fixture in which step-1 of session-1 already has exactly
maxAttempts rejected attempts. -/
def stTwoRejected : ServerState :=
  { invitations := [], sessions := [sessionOne],
    attempts := [rejectedRow1, rejectedRow2] }

/-- A third ordinary photo submission for the same step. -/
def thirdReq : VerifyRequest :=
  { stepId := stepOneId, attemptNumber := "3", expectedObject := objFixture,
    file := none, imageData := some imgFixture }

/-- Claim C2 counterexample: with exactly maxAttempts (=2) rejected
attempts already recorded for the step, a third ordinary photo
submission through the verify endpoint does not fail: the server
accepts it and records a third Attempt row. -/
theorem C2_counterexample :
    ((stTwoRejected.attempts.filter (fun a =>
        a.sessionId == sessionOneId && a.stepId == stepOneId
          && a.verificationResult == some false)).length = maxAttempts) ∧
    (verifyHandler rejectingUpstream stTwoRejected sessionOneId thirdReq).1
      = VerifyResponse.ok
          (newAttemptRow rejectingUpstream stTwoRejected sessionOneId thirdReq 3)
          (verifyOutcome rejectingUpstream thirdReq) ∧
    ((verifyHandler rejectingUpstream stTwoRejected sessionOneId thirdReq).2.attempts).length
      = 3 := by
  decide

/-- Claim C2 (corrected): after maxAttempts (=2) rejected verifications
on a step the client error panel offers only the explicit Use Photo
Anyway override (the Try Again button is withdrawn), but a third
ordinary photo submission is not prevented: the server applies no
attempt gating and accepts and records any further submission for the
step. -/
theorem C2_override_only_in_ui_no_server_gate
    (ac : Nat) (upstream : String → String → Except String UpstreamJson)
    (st : ServerState) (id : String) (req : VerifyRequest) (n : Int)
    (hac : maxAttempts ≤ ac)
    (hi : (req.file.isNone && req.imageData.isNone) = false)
    (hn : parseIntJS req.attemptNumber = some n) :
    errorPanelAction ac = RetryAction.usePhotoAnyway ∧
    (verifyHandler upstream st id req).1
      = VerifyResponse.ok (newAttemptRow upstream st id req n)
          (verifyOutcome upstream req) ∧
    (verifyHandler upstream st id req).2.attempts
      = st.attempts ++ [newAttemptRow upstream st id req n] := by
  refine ⟨?_, ?_, ?_⟩
  · unfold errorPanelAction
    rw [if_neg (by omega)]
  · rw [verifyHandler_eq_ok upstream st id req n hi hn]
  · rw [verifyHandler_eq_ok upstream st id req n hi hn]

/-- Witness for C2 at attempt count 2 and a concrete third submission. -/
theorem C2_witness :
    maxAttempts ≤ 2 ∧
    ((thirdReq.file.isNone && thirdReq.imageData.isNone) = false) ∧
    parseIntJS thirdReq.attemptNumber = some 3 ∧
    errorPanelAction 2 = RetryAction.usePhotoAnyway :=
  ⟨by decide, by decide, by decide,
   (C2_override_only_in_ui_no_server_gate 2 rejectingUpstream stTwoRejected
      sessionOneId thirdReq 3 (by decide) (by decide) (by decide)).1⟩

/-- A completed session fixture. -/
def completedSession : UserSession :=
  { id := sessionOneId, invitationId := "inv-1", currentStep := 3,
    completedSteps := [stepOneId], isCompleted := true,
    completedAt := some 100 }

/-- State fixture holding only the completed session. -/
def stCompleted : ServerState :=
  { invitations := [], sessions := [completedSession], attempts := [] }

/-- Claim C3 counterexample: the session is completed, yet a further
photo submission does not fail with InvalidState: the verify endpoint
accepts it and writes a new Attempt row. -/
theorem C3_counterexample :
    (getUserSession stCompleted sessionOneId).map (fun s => s.isCompleted)
      = some true ∧
    (verifyHandler rejectingUpstream stCompleted sessionOneId reqFixture).1
      = VerifyResponse.ok
          (newAttemptRow rejectingUpstream stCompleted sessionOneId reqFixture 1)
          (verifyOutcome rejectingUpstream reqFixture) ∧
    ((verifyHandler rejectingUpstream stCompleted sessionOneId reqFixture).2.attempts).length
      = 1 := by
  decide

/-- Claim C3 (corrected): the verify route never reads the session row,
so a submitPhoto for a session with isCompleted true is not rejected:
provided an image is present and the attemptNumber parses, it is
processed like any other submission and writes a new Attempt row. -/
theorem C3_completed_session_not_blocked
    (upstream : String → String → Except String UpstreamJson)
    (st : ServerState) (id : String) (req : VerifyRequest)
    (s : UserSession) (n : Int)
    ( _hs : getUserSession st id = some s) ( _hc : s.isCompleted = true)
    (hi : (req.file.isNone && req.imageData.isNone) = false)
    (hn : parseIntJS req.attemptNumber = some n) :
    (verifyHandler upstream st id req).1
      = VerifyResponse.ok (newAttemptRow upstream st id req n)
          (verifyOutcome upstream req) ∧
    (verifyHandler upstream st id req).2.attempts
      = st.attempts ++ [newAttemptRow upstream st id req n] := by
  rw [verifyHandler_eq_ok upstream st id req n hi hn]
  exact ⟨rfl, rfl⟩

/-- Witness for C3 at the concrete completed session. -/
theorem C3_witness :
    getUserSession stCompleted sessionOneId = some completedSession ∧
    completedSession.isCompleted = true ∧
    ((reqFixture.file.isNone && reqFixture.imageData.isNone) = false) ∧
    parseIntJS reqFixture.attemptNumber = some 1 ∧
    (verifyHandler rejectingUpstream stCompleted sessionOneId reqFixture).2.attempts
      = stCompleted.attempts
        ++ [newAttemptRow rejectingUpstream stCompleted sessionOneId reqFixture 1] :=
  ⟨by decide, by decide, by decide, by decide,
   (C3_completed_session_not_blocked rejectingUpstream stCompleted sessionOneId
      reqFixture completedSession 1 (by decide) (by decide) (by decide)
      (by decide)).2⟩

/-- A session fixture sitting at step index 2. -/
def sessionAtTwo : UserSession :=
  { id := sessionOneId, invitationId := "inv-1", currentStep := 2,
    completedSteps := [], isCompleted := false, completedAt := none }

/-- State fixture holding only the session at step 2. -/
def stAtTwo : ServerState :=
  { invitations := [], sessions := [sessionAtTwo], attempts := [] }

/-- A PATCH body that lowers currentStep to 0. -/
def lowerUpdate : SessionUpdates :=
  { currentStep := some 0, completedSteps := none, isCompleted := none,
    completedAt := none }

/-- Claim C6 counterexample: the system permits operations that decrease
the step index.  The PATCH endpoint lowers a session from step 2 back to
step 0, and the legacy page back button decrements the local step
counter from 2 to 1. -/
theorem C6_counterexample :
    sessionAtTwo.currentStep = 2 ∧
    (updateUserSessionHandler stAtTwo sessionOneId lowerUpdate).1
      = PatchResponse.updated { sessionAtTwo with currentStep := 0 } ∧
    ((updateUserSessionHandler stAtTwo sessionOneId lowerUpdate).2.sessions).map
        (fun s => s.currentStep) = [0] ∧
    handlePreviousStep
        { currentStep := 2, attemptCount := 0,
          verificationState := VerificationUiState.idle, capturedImage := none }
      = { currentStep := 1, attemptCount := 0,
          verificationState := VerificationUiState.idle, capturedImage := none } := by
  decide

/-- Claim C6 (corrected): the step index is not globally monotone — the
PATCH endpoint applies caller-supplied currentStep values with no
monotonicity or bounds check and the legacy page back button decrements
it.  The monotone-and-bounded property does hold of the survey page
and its own forward transition: moveToNextStep never decreases currentStepIndex
and keeps it below the number of steps whenever it was in bounds. -/
theorem C6_moveToNextStep_monotone_bounded
    (steps sessionCompletedSteps : List String) (c : SurveyClientState)
    (hlt : c.currentStepIndex < steps.length) :
    c.currentStepIndex
      ≤ (moveToNextStep steps sessionCompletedSteps c).1.currentStepIndex ∧
    (moveToNextStep steps sessionCompletedSteps c).1.currentStepIndex
      < steps.length := by
  by_cases h : steps.length ≤ c.currentStepIndex + 1
  · simp only [moveToNextStep, if_pos h]
    exact ⟨Nat.le_refl _, hlt⟩
  · simp only [moveToNextStep, if_neg h]
    exact ⟨Nat.le_succ _, by omega⟩

/-- Step-id list fixture with two steps. -/
def stepsFixture : List String := [stepOneId, "step-2"]

/-- A survey client state fixture at step 0 after two failed attempts. -/
def clientAtZero : SurveyClientState :=
  { currentStepIndex := 0, attemptCount := 2,
    verificationState := VerificationUiState.error,
    capturedImage := some imgFixture }

/-- Witness for C6 at a concrete in-bounds client state. -/
theorem C6_witness :
    clientAtZero.currentStepIndex < stepsFixture.length ∧
    (clientAtZero.currentStepIndex
      ≤ (moveToNextStep stepsFixture [] clientAtZero).1.currentStepIndex ∧
     (moveToNextStep stepsFixture [] clientAtZero).1.currentStepIndex
      < stepsFixture.length) :=
  ⟨by decide,
   C6_moveToNextStep_monotone_bounded stepsFixture [] clientAtZero (by decide)⟩

/-- A first-ever submission claiming attempt number 999. -/
def req999 : VerifyRequest :=
  { stepId := stepOneId, attemptNumber := "999", expectedObject := objFixture,
    file := none, imageData := some imgFixture }

/-- Claim C7 counterexample: on a completely fresh state the very first
submission, claiming attemptNumber 999, is recorded with attemptNumber
999 — the server keeps no authoritative counter of its own; the stored
counter is exactly the caller-supplied value. -/
theorem C7_counterexample :
    stEmpty.attempts.length = 0 ∧
    ((verifyHandler rejectingUpstream stEmpty sessionOneId req999).2.attempts).map
        (fun a => a.attemptNumber) = [999] := by
  decide

/-- Claim C7 (corrected): the server applies no max-attempts gating at
all, so acceptance indeed does not depend on the caller-supplied
attemptNumber — two requests identical but for that field are gated
identically (both accepted); however the server maintains no
authoritative counter: the caller-supplied attemptNumber is parsed and
stored verbatim in the Attempt row. -/
theorem C7_attemptNumber_advisory_stored_verbatim
    (upstream : String → String → Except String UpstreamJson)
    (st : ServerState) (id : String) (req : VerifyRequest) (s2 : String)
    (n n2 : Int)
    (hi : (req.file.isNone && req.imageData.isNone) = false)
    (hn : parseIntJS req.attemptNumber = some n)
    (hn2 : parseIntJS s2 = some n2) :
    (verifyHandler upstream st id req).1
      = VerifyResponse.ok (newAttemptRow upstream st id req n)
          (verifyOutcome upstream req) ∧
    (verifyHandler upstream st id { req with attemptNumber := s2 }).1
      = VerifyResponse.ok
          (newAttemptRow upstream st id { req with attemptNumber := s2 } n2)
          (verifyOutcome upstream { req with attemptNumber := s2 }) ∧
    (newAttemptRow upstream st id req n).attemptNumber = n ∧
    (newAttemptRow upstream st id { req with attemptNumber := s2 } n2).attemptNumber
      = n2 := by
  refine ⟨?_, ?_, rfl, rfl⟩
  · rw [verifyHandler_eq_ok upstream st id req n hi hn]
  · rw [verifyHandler_eq_ok upstream st id { req with attemptNumber := s2 } n2 hi hn2]

/-- Spoofed attempt number fixture. -/
def attempt999 : String := "999"

/-- Witness for C7 at a concrete request and the spoofed value 999. -/
theorem C7_witness :
    ((reqFixture.file.isNone && reqFixture.imageData.isNone) = false) ∧
    parseIntJS reqFixture.attemptNumber = some 1 ∧
    parseIntJS attempt999 = some 999 ∧
    (newAttemptRow rejectingUpstream stEmpty sessionOneId
        { reqFixture with attemptNumber := attempt999 } 999).attemptNumber = 999 :=
  ⟨by decide, by decide, by decide,
   (C7_attemptNumber_advisory_stored_verbatim rejectingUpstream stEmpty
      sessionOneId reqFixture attempt999 1 999 (by decide) (by decide)
      (by decide)).2.2.2⟩

/-- The start route leaves the invitations table untouched. -/
theorem startSessionHandler_invitations (st : ServerState) (token : String) :
    (startSessionHandler st token).2.invitations = st.invitations := by
  unfold startSessionHandler
  cases h : getSurveyInvitation st token <;> rfl

/-- The PATCH route leaves the invitations table untouched. -/
theorem updateUserSessionHandler_invitations (st : ServerState) (id : String)
    (u : SessionUpdates) :
    (updateUserSessionHandler st id u).2.invitations = st.invitations := by
  unfold updateUserSessionHandler
  cases h : getUserSession st id <;> rfl

/-- The verify route leaves the invitations table untouched. -/
theorem verifyHandler_invitations
    (upstream : String → String → Except String UpstreamJson)
    (st : ServerState) (id : String) (req : VerifyRequest) :
    (verifyHandler upstream st id req).2.invitations = st.invitations := by
  unfold verifyHandler
  by_cases h : (req.file.isNone && req.imageData.isNone) = true
  · rw [if_pos h]
  · rw [if_neg h]
    cases hp : parseIntJS req.attemptNumber <;> rfl

/-- When the token resolves, the start route appends exactly the fresh
session row. -/
theorem startSessionHandler_sessions_of_found (st : ServerState)
    (token : String) (inv : SurveyInvitation)
    (h : getSurveyInvitation st token = some inv) :
    (startSessionHandler st token).2.sessions
      = st.sessions ++ [newUserSession st inv] := by
  unfold startSessionHandler
  rw [h]

/-- Iterated start: k repeated calls of the start route with one token. -/
def iterateStart (st : ServerState) (token : String) : Nat → ServerState
  | 0 => st
  | Nat.succ k => (startSessionHandler (iterateStart st token k) token).2

/-- Each repeated start call adds one more session row and never touches
the invitations table. -/
theorem iterateStart_grows (st : ServerState) (token : String)
    (inv : SurveyInvitation)
    (hfind : getSurveyInvitation st token = some inv) (k : Nat) :
    ((iterateStart st token k).sessions).length = st.sessions.length + k ∧
    (iterateStart st token k).invitations = st.invitations := by
  induction k with
  | zero => exact ⟨rfl, rfl⟩
  | succ k ih =>
      have hfk : getSurveyInvitation (iterateStart st token k) token = some inv := by
        unfold getSurveyInvitation at hfind ⊢
        rw [ih.2]
        exact hfind
      constructor
      · show ((startSessionHandler (iterateStart st token k) token).2.sessions).length = _
        rw [startSessionHandler_sessions_of_found _ _ _ hfk]
        simp [ih.1]
        omega
      · show (startSessionHandler (iterateStart st token k) token).2.invitations = _
        rw [startSessionHandler_invitations]
        exact ih.2

/-- Claim C10 (confirmed): no user-facing operation mutates a
SurveyInvitation after creation — the start, session-PATCH and verify
routes all leave the invitations table (hence each stored
isCompleted and completedAt value) exactly as it was, completing a
session only PATCHes the session row — and session creation is never
blocked by the isCompleted flag of the invitation: even for a completed
invitation, start succeeds, and k repeated starts with the same token
create k session rows. -/
theorem C10_invitations_immutable
    (upstream : String → String → Except String UpstreamJson)
    (st : ServerState) (token id : String) (u : SessionUpdates)
    (req : VerifyRequest) (inv : SurveyInvitation) (k : Nat)
    (hfind : getSurveyInvitation st token = some inv)
    ( _hcomp : inv.isCompleted = true) :
    (startSessionHandler st token).2.invitations = st.invitations ∧
    (updateUserSessionHandler st id u).2.invitations = st.invitations ∧
    (verifyHandler upstream st id req).2.invitations = st.invitations ∧
    (startSessionHandler st token).1
      = StartResponse.created (newUserSession st inv) ∧
    ((iterateStart st token k).sessions).length = st.sessions.length + k := by
  refine ⟨startSessionHandler_invitations st token,
    updateUserSessionHandler_invitations st id u,
    verifyHandler_invitations upstream st id req, ?_,
    (iterateStart_grows st token inv hfind k).1⟩
  unfold startSessionHandler
  rw [hfind]

/-- Token fixture of a completed invitation. -/
def tokDone : String := "tok-done"

/-- An already-completed invitation fixture. -/
def completedInvitation : SurveyInvitation :=
  { id := "inv-2", surveyId := "survey-1", userEmail := "user@example.com",
    invitationToken := tokDone, isCompleted := true, completedAt := some 50,
    expiresAt := 1000 }

/-- State fixture holding only the completed invitation. -/
def stDone : ServerState :=
  { invitations := [completedInvitation], sessions := [], attempts := [] }

/-- An empty PATCH body fixture. -/
def emptyUpdates : SessionUpdates :=
  { currentStep := none, completedSteps := none, isCompleted := none,
    completedAt := none }

/-- Witness for C10: three starts against a completed invitation create
three sessions while the invitations table stays intact. -/
theorem C10_witness :
    getSurveyInvitation stDone tokDone = some completedInvitation ∧
    completedInvitation.isCompleted = true ∧
    ((iterateStart stDone tokDone 3).sessions).length
      = stDone.sessions.length + 3 :=
  ⟨by decide, by decide,
   (C10_invitations_immutable acceptingUpstream stDone tokDone sessionOneId
      emptyUpdates noImageReq completedInvitation 3 (by decide)
      (by decide)).2.2.2.2⟩

end BasePower
